import Mathlib

/-!
# Verification of the EC2 cost-optimization core (`src/annotated_types/main.py`)

Shallow embedding of the utilization sampler (`get_instance_metrics`), the
recommendation engine (`get_recommendations`) and the report assembler
(`analyze_instances`).  Python floats are modelled as rationals (ℚ); the
external pricing catalog (`get_instance_type_info`) is modelled by its
observable behaviour, a function `String → Option ℚ` that returns `none` for
"unknown"; CloudWatch telemetry is modelled as a list of daily datapoints and,
for the assembler, as a fallible sampler `String → Except String (Option (ℚ × ℚ))`.
Python `f"{x:.2f}"` display formatting is modelled by decimal round-half-even
(`formatFixed`), and Python `round(x, 1)` by `pyRound1`.
-/

/-- Floor of a rational, computed directly from its normal form so that the
kernel can evaluate it. -/
def ratFloor (q : ℚ) : ℤ := Int.fdiv q.num (q.den : ℤ)

/-- Round a rational to the nearest integer, ties to even
(the rounding Python uses for `round` and `format`). -/
def roundHalfEven (q : ℚ) : ℤ :=
  let fl := ratFloor q
  let frac := q - (fl : ℚ)
  if frac < 1/2 then fl
  else if 1/2 < frac then fl + 1
  else if fl % 2 = 0 then fl else fl + 1

/-- Model of Python `f"{q:.df}"`: fixed-point decimal display with `d`
digits after the point, round half to even. -/
def formatFixed (d : Nat) (q : ℚ) : String :=
  let n := roundHalfEven (q * (10 : ℚ) ^ d)
  let sign := if q < 0 then "-" else ""
  let m := n.natAbs
  let ip := m / 10 ^ d
  let fp := m % 10 ^ d
  let fpStr := toString fp
  let fpPad := String.mk (List.replicate (d - fpStr.length) '0') ++ fpStr
  if d = 0 then sign ++ toString ip else sign ++ toString ip ++ "." ++ fpPad

/-- Model of Python `round(q, 1)` (used for the AvgCPU / MaxCPU report columns). -/
def pyRound1 (q : ℚ) : ℚ :=
  (roundHalfEven (q * 10) : ℚ) / 10

/-- Model of Python `current_type.split('.')[0]` (main.py line 93): the part of
the string before the first dot, or the whole string when no dot occurs. -/
def splitDotHead (s : String) : String :=
  String.mk (s.data.takeWhile (fun c => c ≠ '.'))

/-- A running EC2 instance as assembled by `get_all_instances` (main.py 47-58). -/
structure Ec2Instance where
  instanceId : String
  instanceType : String
  launchTime : String
  tags : List (String × String)
deriving DecidableEq

/-- Model of Python `tags.get(key, default)` on the tag dictionary. -/
def tagsGet (tags : List (String × String)) (k dflt : String) : String :=
  match tags.find? (fun p => p.1 == k) with
  | some p => p.2
  | none => dflt

/-- The advisory line of main.py line 91. -/
def underutilLine (max_util : ℚ) : String :=
  "Underutilized (Max CPU: " ++ formatFixed 1 max_util ++ "%)"

/-- The advisory line of main.py line 106. -/
def idleLine : String := "Consider stopping: appears unused"

/-- The suggestion line of main.py lines 102-104. -/
def suggestionLine (new_type : String) (savings savings_percent : ℚ) : String :=
  "⬇️ Suggest: " ++ new_type ++ " → Save $" ++ formatFixed 2 savings ++
    "/hr (" ++ formatFixed 1 savings_percent ++ "%)"

/-- One iteration of the candidate loop of main.py lines 95-104: skip the
current type (line 96-97); then Python's
`if new_price and current_price and new_price < current_price` — note that
`and` tests *truthiness*, so a resolved price of `0.0` behaves like `None`
here — and on success emit the formatted suggestion with
`savings = current_price - new_price` and
`savings_percent = savings / current_price * 100`. -/
def suggestionFor (price : String → Option ℚ) (current_price : Option ℚ)
    (current_type new_type : String) : Option String :=
  if new_type = current_type then none
  else
    match price new_type, current_price with
    | some np, some cp =>
      if np ≠ 0 ∧ cp ≠ 0 ∧ np < cp then
        let savings := cp - np
        let savings_percent := savings / cp * 100
        some (suggestionLine new_type savings savings_percent)
      else none
    | _, _ => none

/-- Embedding of `get_recommendations` (main.py 87-107).  `price` stands for
`get_instance_type_info`; the Python loop that conditionally appends to
`recommendations` is rendered as a `filterMap` over the candidate list
built on line 94. -/
def get_recommendations (price : String → Option ℚ) (inst : Ec2Instance)
    (avg_util max_util : ℚ) : List String :=
  let current_type := inst.instanceType
  let base : List String :=
    if max_util < 40 then
      let current_price := price current_type
      let family := splitDotHead current_type
      let potential_types :=
        [family ++ ".large", family ++ ".medium", family ++ ".small"]
      underutilLine max_util ::
        potential_types.filterMap (suggestionFor price current_price current_type)
    else []
  base ++ (if max_util < 10 then [idleLine] else [])

/-- A daily CloudWatch datapoint (Average and Maximum CPUUtilization). -/
structure Datapoint where
  average : ℚ
  maximum : ℚ
deriving DecidableEq

/-- Python `max` over a non-empty sequence, as a fold. -/
def maxOfList : List ℚ → ℚ
  | [] => 0
  | x :: xs => xs.foldl max x

/-- Embedding of `get_instance_metrics` (main.py 27-45), parameterised by the
datapoints the telemetry source returns: `(None, None)` — here `none` — when
there are no datapoints, otherwise the mean of the daily Averages paired with
the max of the daily Maximums. -/
def get_instance_metrics (datapoints : List Datapoint) : Option (ℚ × ℚ) :=
  if datapoints = [] then none
  else
    some ((datapoints.map Datapoint.average).sum / (datapoints.length : ℚ),
          maxOfList (datapoints.map Datapoint.maximum))

/-- One row of the final report (main.py 143-150). -/
structure ReportRow where
  instanceId : String
  name : String
  instanceType : String
  avgCPU : ℚ
  maxCPU : ℚ
  recommendations : String
deriving DecidableEq

/-- main.py line 149: `"\n".join(recommendations) if recommendations else "✅ No recommendations"`. -/
def renderRecommendations (recs : List String) : String :=
  if recs.isEmpty then "✅ No recommendations" else String.intercalate "\n" recs

/-- The record appended for a successfully analyzed instance (main.py 143-150). -/
def mkReportRow (price : String → Option ℚ) (inst : Ec2Instance)
    (avg_util max_util : ℚ) : ReportRow :=
  { instanceId := inst.instanceId
    name := tagsGet inst.tags "Name" ""
    instanceType := inst.instanceType
    avgCPU := pyRound1 avg_util
    maxCPU := pyRound1 max_util
    recommendations :=
      renderRecommendations (get_recommendations price inst avg_util max_util) }

/-- Embedding of the per-instance loop of `analyze_instances` (main.py 134-152).
`sampler` stands for `get_instance_metrics` on the live telemetry source: it
may raise (`Except.error`, caught and logged by the `try/except` on lines
137-152, skipping the instance), report no data (`Except.ok none`, skipped on
lines 139-141), or succeed with an (avg, max) pair, in which case a report row
is appended in iteration order. -/
def analyze_instances (price : String → Option ℚ)
    (sampler : String → Except String (Option (ℚ × ℚ))) :
    List Ec2Instance → List ReportRow
  | [] => []
  | inst :: rest =>
    match sampler inst.instanceId with
    | Except.error _ => analyze_instances price sampler rest
    | Except.ok none => analyze_instances price sampler rest
    | Except.ok (some (avg_util, max_util)) =>
        mkReportRow price inst avg_util max_util ::
          analyze_instances price sampler rest

/-- Modelled from the spec's words (§4.3 / §8): the candidate types are the
family with the fixed size suffixes `large`, `medium`, `small` substituted,
in that fixed declaration order. -/
def specCandidateTypes (family : String) : List String :=
  [family ++ ".large", family ++ ".medium", family ++ ".small"]

/-! ## Concrete fixtures used by witnesses and counterexamples -/

/-- The pricing environment of the spec's end-to-end scenario:
m5.large $0.096/hr, m5.medium $0.048/hr, m5.small $0.024/hr. -/
def priceM5 : String → Option ℚ := fun t =>
  if t = "m5.large" then some (96/1000)
  else if t = "m5.medium" then some (48/1000)
  else if t = "m5.small" then some (24/1000)
  else none

/-- A pricing environment in which a candidate's price resolves to $0.00 —
reachable in the source because `get_instance_type_info` turns the catalog
string "0.0000000000" into the float `0.0`. -/
def priceZero : String → Option ℚ := fun t =>
  if t = "m5.large" then some (96/1000)
  else if t = "m5.small" then some 0
  else none

/-- A pricing environment that prices the synthetic candidates built from a
delimiterless type string. -/
def priceFoo : String → Option ℚ := fun t =>
  if t = "foo" then some 1
  else if t = "foo.large" then some (1/2)
  else none

/-- The m5.large instance of the spec's end-to-end scenario. -/
def instM5 : Ec2Instance :=
  { instanceId := "i-001", instanceType := "m5.large",
    launchTime := "2024-01-01", tags := [("Name", "web")] }

/-- An instance whose type string contains no dot delimiter. -/
def instFoo : Ec2Instance :=
  { instanceId := "i-foo", instanceType := "foo",
    launchTime := "2024-01-01", tags := [] }

/-- Inventory members for the report-assembler scenario. -/
def instErr : Ec2Instance :=
  { instanceId := "i-err", instanceType := "t3.large",
    launchTime := "2024-01-01", tags := [] }

def instEmpty : Ec2Instance :=
  { instanceId := "i-empty", instanceType := "t3.medium",
    launchTime := "2024-01-02", tags := [] }

def instOk : Ec2Instance :=
  { instanceId := "i-ok", instanceType := "m5.large",
    launchTime := "2024-01-03", tags := [("Name", "api")] }

/-- A sampler that throws on `i-err`, returns no data on `i-empty`, and
succeeds with (avg 20, max 35) elsewhere. -/
def samplerW : String → Except String (Option (ℚ × ℚ)) := fun id =>
  if id = "i-err" then Except.error "RequestLimitExceeded"
  else if id = "i-empty" then Except.ok none
  else Except.ok (some (20, 35))

/-! ## Helper lemmas -/

theorem analyze_instances_append (price : String → Option ℚ)
    (sampler : String → Except String (Option (ℚ × ℚ)))
    (xs ys : List Ec2Instance) :
    analyze_instances price sampler (xs ++ ys)
      = analyze_instances price sampler xs ++ analyze_instances price sampler ys := by
  induction xs with
  | nil => rfl
  | cons i rest ih =>
    cases h : sampler i.instanceId with
    | error e => simp [analyze_instances, h, ih]
    | ok o =>
      cases o with
      | none => simp [analyze_instances, h, ih]
      | some p =>
        obtain ⟨a, m⟩ := p
        simp [analyze_instances, h, ih]

theorem foldl_max_init_le (l : List ℚ) (b : ℚ) : b ≤ l.foldl max b := by
  induction l generalizing b with
  | nil => exact le_refl b
  | cons x xs ih => exact le_trans (le_max_left b x) (ih (max b x))

theorem le_foldl_max_of_mem (l : List ℚ) : ∀ (b a : ℚ), a ∈ l → a ≤ l.foldl max b := by
  induction l with
  | nil => intro _ _ h; cases h
  | cons x xs ih =>
    intro b a h
    simp only [List.foldl_cons]
    rcases List.mem_cons.mp h with h1 | h2
    · rw [h1]; exact le_trans (le_max_right b x) (foldl_max_init_le xs (max b x))
    · exact ih (max b x) a h2

theorem foldl_max_eq_or_mem (l : List ℚ) : ∀ b : ℚ, l.foldl max b = b ∨ l.foldl max b ∈ l := by
  induction l with
  | nil => intro _; exact Or.inl rfl
  | cons x xs ih =>
    intro b
    rcases ih (max b x) with h | h
    · rcases max_choice b x with hb | hx
      · left; rw [List.foldl_cons, h, hb]
      · right; rw [List.foldl_cons, h, hx]; exact List.mem_cons_self x xs
    · right; exact List.mem_cons_of_mem x h

theorem maxOfList_mem (l : List ℚ) (h : l ≠ []) : maxOfList l ∈ l := by
  cases l with
  | nil => exact absurd rfl h
  | cons x xs =>
    show xs.foldl max x ∈ x :: xs
    rcases foldl_max_eq_or_mem xs x with he | hm
    · rw [he]; exact List.mem_cons_self x xs
    · exact List.mem_cons_of_mem x hm

theorem le_maxOfList (l : List ℚ) (x : ℚ) (h : x ∈ l) : x ≤ maxOfList l := by
  cases l with
  | nil => cases h
  | cons y ys =>
    show x ≤ ys.foldl max y
    rcases List.mem_cons.mp h with h1 | h2
    · rw [h1]; exact foldl_max_init_le ys y
    · exact le_foldl_max_of_mem ys y x h2

theorem suggestionFor_none (price : String → Option ℚ) (ct nt : String) :
    suggestionFor price none ct nt = none := by
  unfold suggestionFor
  split
  · rfl
  · cases price nt <;> rfl

theorem suggestionFor_of_price_none (price : String → Option ℚ) (cp : Option ℚ)
    (ct nt : String) (hp : price nt = none) :
    suggestionFor price cp ct nt = none := by
  unfold suggestionFor
  split
  · rfl
  · rw [hp]

theorem head_of_append (a b : String) (c : Char) (h : a.data.head? = some c) :
    (a ++ b).data.head? = some c := by
  rw [String.data_append]
  cases ha : a.data with
  | nil => rw [ha] at h; exact absurd h (by simp)
  | cons x xs =>
    rw [ha] at h
    simp only [List.head?_cons, Option.some.injEq] at h
    subst h
    simp

theorem underutilLine_head (m : ℚ) : (underutilLine m).data.head? = some 'U' :=
  head_of_append _ _ _ (head_of_append _ _ _ (by decide))

theorem suggestionLine_head (nt : String) (sv pct : ℚ) :
    (suggestionLine nt sv pct).data.head? = some '⬇' :=
  head_of_append _ _ _ (head_of_append _ _ _ (head_of_append _ _ _
    (head_of_append _ _ _ (head_of_append _ _ _ (head_of_append _ _ _ (by decide))))))

theorem suggestionFor_head (price : String → Option ℚ) (cp : Option ℚ)
    (ct nt s : String) (h : suggestionFor price cp ct nt = some s) :
    s.data.head? = some '⬇' := by
  unfold suggestionFor at h
  split at h
  · cases h
  · split at h
    · split at h
      · simp only [Option.some.injEq] at h
        subst h
        exact suggestionLine_head _ _ _
      · cases h
    · cases h

/-! ## Claim theorems -/

/-- Claim C2: the recommendation engine emits the underutilized advisory
(carrying the max value) if and only if `max < 40`, with strict inequality;
and when the current type's price is unknown the advisory still appears but
no downgrade suggestion does. -/
theorem underutil_iff (price : String → Option ℚ) (inst : Ec2Instance) (a m : ℚ) :
    (underutilLine m ∈ get_recommendations price inst a m ↔ m < 40)
    ∧ (price inst.instanceType = none →
        get_recommendations price inst a m
          = (if m < 40 then [underutilLine m] else [])
              ++ (if m < 10 then [idleLine] else [])) := by
  constructor
  · constructor
    · intro hmem
      by_contra hm
      have h10 : ¬ m < 10 := fun h => hm (lt_trans h (by norm_num))
      simp [get_recommendations, hm, h10] at hmem
    · intro hm
      simp [get_recommendations, hm]
  · intro hp
    by_cases hm : m < 40
    · simp [get_recommendations, hm, hp, suggestionFor_none]
    · have h10 : ¬ m < 10 := fun h => hm (lt_trans h (by norm_num))
      simp [get_recommendations, hm, h10]

/-- Claim C2 witness: at the boundary `max = 40` the advisory is absent, and
with an all-unknown pricing environment and `max = 35` the advisory is the
only rule-1 output. -/
theorem underutil_iff_witness :
    (¬ underutilLine 40 ∈ get_recommendations priceM5 instM5 20 40)
    ∧ get_recommendations (fun _ => none) instM5 20 35
        = (if (35:ℚ) < 40 then [underutilLine 35] else [])
            ++ (if (35:ℚ) < 10 then [idleLine] else []) :=
  ⟨fun h => absurd ((underutil_iff priceM5 instM5 20 40).1.mp h) (by norm_num),
   (underutil_iff (fun _ => none) instM5 20 35).2 rfl⟩

/-- Claim C3: the idle advisory is appended if and only if `max < 10`, and it
is additive to rule 1: when `max < 10` the output starts with the
underutilized advisory and ends with the idle advisory, never the idle
advisory alone. -/
theorem idle_additive (price : String → Option ℚ) (inst : Ec2Instance) (a m : ℚ) :
    (idleLine ∈ get_recommendations price inst a m ↔ m < 10)
    ∧ (m < 10 → ∃ mid, get_recommendations price inst a m
        = underutilLine m :: (mid ++ [idleLine])) := by
  have h40 : m < 10 → m < 40 := fun h => lt_trans h (by norm_num)
  constructor
  · constructor
    · intro hmem
      by_contra h10
      by_cases hm : m < 40
      · simp [get_recommendations, hm, h10] at hmem
        rcases hmem with h | h
        · have h1 := underutilLine_head m
          rw [← h] at h1
          exact absurd h1 (by decide)
        · rcases h with h | h | h
          all_goals exact absurd (suggestionFor_head _ _ _ _ _ h) (by decide)
      · simp [get_recommendations, hm, h10] at hmem
    · intro h10
      simp [get_recommendations, h40 h10, h10]
  · intro h10
    refine ⟨(specCandidateTypes (splitDotHead inst.instanceType)).filterMap
      (suggestionFor price (price inst.instanceType) inst.instanceType), ?_⟩
    simp [get_recommendations, specCandidateTypes, h40 h10, h10]

/-- Claim C3 witness: at `max = 5` the idle advisory is present. -/
theorem idle_additive_witness :
    idleLine ∈ get_recommendations (fun _ => none) instM5 5 5 :=
  (idle_additive (fun _ => none) instM5 5 5).1.mpr (by norm_num)

/-- Claim C10: the recommendation engine's output does not depend on the
average-utilization argument: any two average values give identical
recommendation lists. -/
theorem avg_not_used (price : String → Option ℚ) (inst : Ec2Instance)
    (a1 a2 m : ℚ) :
    get_recommendations price inst a1 m = get_recommendations price inst a2 m := rfl

/-- Claim C1 (amended): for a candidate distinct from the current type, a
downgrade suggestion is produced if and only if both prices are resolvable
*and nonzero* and the candidate price is strictly lower; each emitted entry
carries `savings = current − candidate` (strictly positive) and
`savings percent = savings / current * 100`, displayed to two and one
decimals; the m5.large / $0.096 scenario yields exactly the spec's strings. -/
theorem downgrade_policy :
    (∀ (price : String → Option ℚ) (cp : Option ℚ) (ct nt : String), nt ≠ ct →
      ((suggestionFor price cp ct nt).isSome = true ↔
        ∃ np c, price nt = some np ∧ cp = some c ∧ np ≠ 0 ∧ c ≠ 0 ∧ np < c))
    ∧ (∀ (price : String → Option ℚ) (c np : ℚ) (ct nt : String),
        nt ≠ ct → price nt = some np → np ≠ 0 → c ≠ 0 → np < c →
        suggestionFor price (some c) ct nt
          = some (suggestionLine nt (c - np) ((c - np) / c * 100)) ∧ 0 < c - np)
    ∧ get_recommendations priceM5 instM5 20 35
        = ["Underutilized (Max CPU: 35.0%)",
           "⬇️ Suggest: m5.medium → Save $0.05/hr (50.0%)",
           "⬇️ Suggest: m5.small → Save $0.07/hr (75.0%)"] := by
  refine ⟨?_, ?_, ?_⟩
  · intro price cp ct nt hne
    constructor
    · intro hs
      unfold suggestionFor at hs
      rw [if_neg hne] at hs
      cases cp with
      | none =>
        cases hp : price nt with
        | none => rw [hp] at hs; simp at hs
        | some np => rw [hp] at hs; simp at hs
      | some c =>
        cases hp : price nt with
        | none => rw [hp] at hs; simp at hs
        | some np =>
          rw [hp] at hs
          by_cases hcond : np ≠ 0 ∧ c ≠ 0 ∧ np < c
          · exact ⟨np, c, rfl, rfl, hcond.1, hcond.2.1, hcond.2.2⟩
          · exfalso
            simp [hcond] at hs
    · rintro ⟨np, c, hp, hcp, h1, h2, h3⟩
      subst hcp
      unfold suggestionFor
      rw [if_neg hne, hp]
      simp [h1, h2, h3]
  · intro price c np ct nt hne hp h1 h2 h3
    constructor
    · unfold suggestionFor
      rw [if_neg hne, hp]
      simp [h1, h2, h3]
    · exact sub_pos.mpr h3
  · with_unfolding_all decide

/-- Claim C1 witness: the m5.medium candidate against the $0.096 current
price produces the formatted suggestion with positive savings. -/
theorem downgrade_policy_witness :
    ("m5.medium" : String) ≠ "m5.large"
    ∧ priceM5 "m5.medium" = some (48/1000)
    ∧ (suggestionFor priceM5 (some (96/1000)) "m5.large" "m5.medium"
         = some (suggestionLine "m5.medium" ((96:ℚ)/1000 - 48/1000)
             (((96:ℚ)/1000 - 48/1000) / (96/1000) * 100))
       ∧ 0 < (96:ℚ)/1000 - 48/1000) :=
  ⟨by decide, rfl,
   downgrade_policy.2.1 priceM5 (96/1000) (48/1000) "m5.large" "m5.medium"
     (by decide) rfl (by norm_num) (by norm_num) (by norm_num)⟩

/-- Claim C1 counterexample: with the candidate m5.small *resolvable* at
$0.00 — strictly lower than the current $0.096 — the claim as stated demands
a suggestion entry, but the code's truthiness test drops it: only the
underutilization advisory is emitted. -/
theorem downgrade_zero_price_counterexample :
    priceZero "m5.small" = some 0
    ∧ priceZero "m5.large" = some (96/1000)
    ∧ ((0:ℚ) < 96/1000)
    ∧ get_recommendations priceZero instM5 20 35
        = ["Underutilized (Max CPU: 35.0%)"] := by
  with_unfolding_all decide

/-- Claim C4: for an underutilized instance the engine's output is the
underutilization advisory followed, in declaration order, by the suggestions
filtered from exactly the three candidates `family.large`, `family.medium`,
`family.small` (family = prefix of the type before the first dot), any
candidate equal to the current type yielding nothing. -/
theorem candidates_fixed_order (price : String → Option ℚ) (inst : Ec2Instance)
    (a m : ℚ) (h : m < 40) :
    get_recommendations price inst a m
      = underutilLine m ::
          ((specCandidateTypes (splitDotHead inst.instanceType)).filterMap
              (suggestionFor price (price inst.instanceType) inst.instanceType)
            ++ (if m < 10 then [idleLine] else []))
    ∧ ∀ t s, suggestionFor price (price inst.instanceType) inst.instanceType t
          = some s → t ≠ inst.instanceType := by
  constructor
  · simp [get_recommendations, specCandidateTypes, h]
  · intro t s hts heq
    rw [heq] at hts
    unfold suggestionFor at hts
    rw [if_pos rfl] at hts
    cases hts

/-- Claim C4 witness: the scenario instantiation — m5.large is skipped as
self and the two cheaper candidates appear in declaration order. -/
theorem candidates_fixed_order_witness :
    get_recommendations priceM5 instM5 20 35
      = underutilLine 35 ::
          ((specCandidateTypes (splitDotHead instM5.instanceType)).filterMap
              (suggestionFor priceM5 (priceM5 instM5.instanceType) instM5.instanceType)
            ++ (if (35:ℚ) < 10 then [idleLine] else [])) :=
  (candidates_fixed_order priceM5 instM5 20 35 (by norm_num)).1

/-- Claim C5: the report assembler never aborts: an instance whose telemetry
query throws is skipped, an instance whose sampler reports the successful
no-data sentinel is skipped, and surviving rows appear in inventory order —
in particular the 3-instance scenario (one throws, one has no data, one
succeeds) yields exactly the single successful row. -/
theorem assembler_resilient (price : String → Option ℚ)
    (sampler : String → Except String (Option (ℚ × ℚ)))
    (i1 i2 i3 : Ec2Instance) (msg : String) (a m : ℚ)
    (h1 : sampler i1.instanceId = Except.error msg)
    (h2 : sampler i2.instanceId = Except.ok none)
    (h3 : sampler i3.instanceId = Except.ok (some (a, m))) :
    analyze_instances price sampler [i1, i2, i3] = [mkReportRow price i3 a m]
    ∧ (∀ pre post : List Ec2Instance,
        analyze_instances price sampler (pre ++ i1 :: post)
          = analyze_instances price sampler pre ++ analyze_instances price sampler post)
    ∧ (∀ pre post : List Ec2Instance,
        analyze_instances price sampler (pre ++ i2 :: post)
          = analyze_instances price sampler pre ++ analyze_instances price sampler post)
    ∧ (∀ pre post : List Ec2Instance,
        analyze_instances price sampler (pre ++ i3 :: post)
          = analyze_instances price sampler pre
              ++ mkReportRow price i3 a m :: analyze_instances price sampler post) := by
  refine ⟨?_, ?_, ?_, ?_⟩
  · simp [analyze_instances, h1, h2, h3]
  · intro pre post
    rw [analyze_instances_append]
    simp [analyze_instances, h1]
  · intro pre post
    rw [analyze_instances_append]
    simp [analyze_instances, h2]
  · intro pre post
    rw [analyze_instances_append]
    simp [analyze_instances, h3]

/-- Claim C5 witness: the concrete 3-instance inventory. -/
theorem assembler_resilient_witness :
    analyze_instances priceM5 samplerW [instErr, instEmpty, instOk]
      = [mkReportRow priceM5 instOk 20 35] :=
  (assembler_resilient priceM5 samplerW instErr instEmpty instOk
    "RequestLimitExceeded" 20 35 rfl rfl rfl).1

/-- Claim C6: the sampler returns the no-data sentinel exactly when the
telemetry source returns zero datapoints; otherwise it returns the arithmetic
mean of the per-day Average values paired with a true maximum of the per-day
Maximum values (an upper bound that is itself one of the daily maxima). -/
theorem metrics_spec (dps : List Datapoint) :
    (get_instance_metrics dps = none ↔ dps = [])
    ∧ (∀ a M, get_instance_metrics dps = some (a, M) →
        a = (dps.map Datapoint.average).sum / (dps.length : ℚ)
        ∧ M ∈ dps.map Datapoint.maximum
        ∧ ∀ x ∈ dps.map Datapoint.maximum, x ≤ M) := by
  constructor
  · unfold get_instance_metrics
    split
    case isTrue h => simp [h]
    case isFalse h => simp [h]
  · intro a M hm
    unfold get_instance_metrics at hm
    split at hm
    case isTrue h => cases hm
    case isFalse h =>
      simp only [Option.some.injEq, Prod.mk.injEq] at hm
      obtain ⟨ha, hM⟩ := hm
      have hne : dps.map Datapoint.maximum ≠ [] := by simpa using h
      refine ⟨ha.symm, ?_, ?_⟩
      · rw [← hM]; exact maxOfList_mem _ hne
      · intro x hx
        rw [← hM]; exact le_maxOfList _ x hx

/-- Claim C6 witness: a one-datapoint telemetry result. -/
theorem metrics_spec_witness :
    get_instance_metrics [Datapoint.mk 30 50] = some (30, 50)
    ∧ (30:ℚ) = (([Datapoint.mk 30 50].map Datapoint.average).sum
        / (([Datapoint.mk 30 50] : List Datapoint).length : ℚ))
    ∧ (50:ℚ) ∈ [Datapoint.mk 30 50].map Datapoint.maximum := by
  have h : get_instance_metrics [Datapoint.mk 30 50] = some (30, 50) := by
    with_unfolding_all decide
  obtain ⟨ha, hmem, _⟩ := (metrics_spec [Datapoint.mk 30 50]).2 30 50 h
  exact ⟨h, ha, hmem⟩

/-- Claim C7: when every daily datapoint has Maximum at least Average, the
summary the sampler produces satisfies max ≥ avg. -/
theorem max_ge_avg (dps : List Datapoint)
    (hd : ∀ dp ∈ dps, dp.average ≤ dp.maximum)
    (a M : ℚ) (h : get_instance_metrics dps = some (a, M)) : a ≤ M := by
  have hne : dps ≠ [] := by
    intro he
    rw [he] at h
    simp [get_instance_metrics] at h
  unfold get_instance_metrics at h
  rw [if_neg hne] at h
  simp only [Option.some.injEq, Prod.mk.injEq] at h
  obtain ⟨ha, hM⟩ := h
  have hub : ∀ x ∈ dps.map Datapoint.average, x ≤ M := by
    intro x hx
    rcases List.mem_map.mp hx with ⟨dp, hdp, hxe⟩
    rw [← hxe, ← hM]
    exact le_trans (hd dp hdp)
      (le_maxOfList _ dp.maximum (List.mem_map_of_mem Datapoint.maximum hdp))
  have hsum := List.sum_le_card_nsmul (dps.map Datapoint.average) M hub
  rw [List.length_map, nsmul_eq_mul] at hsum
  have hlen : (0:ℚ) < (dps.length : ℚ) := by
    exact_mod_cast List.length_pos.mpr hne
  rw [← ha, div_le_iff₀ hlen]
  calc (dps.map Datapoint.average).sum ≤ (dps.length : ℚ) * M := hsum
    _ = M * (dps.length : ℚ) := mul_comm _ _

/-- Claim C7 witness: a single datapoint with Average 30 and Maximum 50. -/
theorem max_ge_avg_witness :
    get_instance_metrics [Datapoint.mk 30 50] = some (30, 50) ∧ (30:ℚ) ≤ 50 :=
  ⟨by with_unfolding_all decide,
   max_ge_avg [Datapoint.mk 30 50] (by with_unfolding_all decide) 30 50
     (by with_unfolding_all decide)⟩

/-- Claim C8 (amended): when no advisories apply (`max ≥ 40`) the engine
returns the empty list, and the report assembler — not the engine — renders
the distinct marker "✅ No recommendations" (never the empty string) for that
instance. -/
theorem ok_marker (price : String → Option ℚ) (inst : Ec2Instance)
    (a m : ℚ) (h : 40 ≤ m) :
    get_recommendations price inst a m = []
    ∧ (mkReportRow price inst a m).recommendations = "✅ No recommendations"
    ∧ (mkReportRow price inst a m).recommendations ≠ "" := by
  have hm : ¬ m < 40 := not_lt.mpr h
  have h10 : ¬ m < 10 := not_lt.mpr (le_trans (by norm_num) h)
  have hrec : get_recommendations price inst a m = [] := by
    simp [get_recommendations, hm, h10]
  refine ⟨hrec, ?_, ?_⟩
  · simp [mkReportRow, hrec, renderRecommendations]
  · simp [mkReportRow, hrec, renderRecommendations]

/-- Claim C8 witness: the `max = 60` scenario. -/
theorem ok_marker_witness :
    get_recommendations priceM5 instM5 20 60 = []
    ∧ (mkReportRow priceM5 instM5 20 60).recommendations = "✅ No recommendations"
    ∧ (mkReportRow priceM5 instM5 20 60).recommendations ≠ "" :=
  ok_marker priceM5 instM5 20 60 (by norm_num)

/-- Claim C8 counterexample: at `max = 60` the engine itself returns literally
the empty sequence — there is no distinct positive-confirmation state at the
engine boundary; the "✅ No recommendations" marker is added only by the
report assembler's rendering. -/
theorem ok_marker_counterexample :
    get_recommendations (fun _ => none) instM5 50 60 = []
    ∧ renderRecommendations (get_recommendations (fun _ => none) instM5 50 60)
        = "✅ No recommendations" := by
  with_unfolding_all decide

/-- Claim C9 (amended): for a type string with no dot delimiter, the family is
the whole string and the computation is total (no crash); the three synthetic
candidates `family.large/.medium/.small` are still formed, and when the
catalog resolves none of them only the advisory lines are emitted. -/
theorem no_delimiter_family (price : String → Option ℚ) (inst : Ec2Instance)
    (a m : ℚ) (hm : m < 40)
    (hnd : '.' ∉ inst.instanceType.data)
    (hl : price (inst.instanceType ++ ".large") = none)
    (hmed : price (inst.instanceType ++ ".medium") = none)
    (hsm : price (inst.instanceType ++ ".small") = none) :
    splitDotHead inst.instanceType = inst.instanceType
    ∧ get_recommendations price inst a m
        = underutilLine m :: (if m < 10 then [idleLine] else []) := by
  have hfam : splitDotHead inst.instanceType = inst.instanceType := by
    unfold splitDotHead
    have htw : inst.instanceType.data.takeWhile (fun c => c ≠ '.')
        = inst.instanceType.data := by
      refine List.takeWhile_eq_self_iff.mpr ?_
      intro c hc
      simp only [ne_eq, decide_eq_true_eq]
      intro he
      exact hnd (he ▸ hc)
    rw [htw]
  refine ⟨hfam, ?_⟩
  simp [get_recommendations, hm, hfam,
    suggestionFor_of_price_none price _ inst.instanceType _ hl,
    suggestionFor_of_price_none price _ inst.instanceType _ hmed,
    suggestionFor_of_price_none price _ inst.instanceType _ hsm]

/-- Claim C9 witness: type "foo" with an all-unknown catalog at max 35. -/
theorem no_delimiter_family_witness :
    splitDotHead instFoo.instanceType = instFoo.instanceType
    ∧ get_recommendations (fun _ => none) instFoo 5 35
        = underutilLine 35 :: (if (35:ℚ) < 10 then [idleLine] else []) :=
  no_delimiter_family (fun _ => none) instFoo 5 35 (by norm_num) (by decide)
    rfl rfl rfl

/-- Claim C9 counterexample: the delimiterless type "foo" does *not* always
yield "no valid downgrade candidates": the synthetic candidate "foo.large" is
still looked up, and with a catalog pricing it below "foo" a suggestion is
emitted. -/
theorem no_delimiter_counterexample :
    '.' ∉ instFoo.instanceType.data
    ∧ priceFoo "foo.large" = some (1/2)
    ∧ get_recommendations priceFoo instFoo 20 35
        = ["Underutilized (Max CPU: 35.0%)",
           "⬇️ Suggest: foo.large → Save $0.50/hr (50.0%)"] := by
  with_unfolding_all decide
